import Mathlib

/-!
Verification development for the order-tracking service in `app/main.py`.

The service is a FastAPI gateway with one real endpoint, `GET /order-lookup`,
which validates an order identifier, resolves the order against the Commerce7
("C7") order system, verifies the caller-supplied email against the customer
record, optionally enriches the status line via the Wineshipping ("WS")
tracking system, and answers with either a 200 "found" payload or a 404
"not found" payload.

Shallow embedding conventions:
* Parsed JSON bodies (the values produced by `r.json()`) are modelled by the
  inductive type `Json` below; Python `None` and JSON `null` coincide as
  `Json.null` (exactly as they do after `json` parsing in Python).
* Python operations that can raise (`.get` on a non-dict, `.lower()` on a
  non-string, `int(...)` of a malformed string, iteration of a non-iterable,
  indexing) are modelled in the `Except Unit` monad; `.error ()` stands for a
  raised exception.
* Each upstream HTTP call is modelled by its network outcome: `.error ()`
  when the request itself raised (network error, timeout, or the
  missing-credentials `RuntimeError` from `_c7_headers`), or `.ok resp`
  with `resp : HttpResp` carrying the status code and the body-parse
  outcome of the response that arrived.
* main.py:160 and main.py:240 read the response body for logging as
  `text = await r.text()`.  Under httpx, `Response.text` is a `str`
  property, not a method, so `r.text()` raises
  `TypeError: str object is not callable` on every response that arrives —
  before `raise_for_status` and `r.json()` are reached.  The embedding
  reproduces this: `fetch_c7_json` raises on every completed exchange (so
  no order ever resolves and the endpoint can only answer 404), and
  `fetch_ws_tracking` raises on every response once its guard passes (so
  its 404 check, `raise_for_status` and `r.json()` are dead code).  The
  status code and body carried by `HttpResp` are consequently never
  consulted by the embedded client code.  The `print` statements are pure
  observability and are modelled as no-ops.
* `order_lookup` models the endpoint body after the auth dependency and the
  IP-allowlist middleware have passed (an authenticated, allowlisted
  request); it returns the produced response together with the number of
  upstream HTTP requests issued.
-/

/-- A parsed JSON value / Python object as produced by `response.json()`.
Python `None` and JSON `null` are both `Json.null`. -/
inductive Json where
  | null
  | str (s : String)
  | num (n : Int)
  | bool (b : Bool)
  | arr (xs : List Json)
  | obj (fields : List (String × Json))

mutual

/-- Structural equality on `Json` values (used for Python dict keys). -/
def Json.beq : Json → Json → Bool
  | .null, .null => true
  | .str a, .str b => a == b
  | .num a, .num b => a == b
  | .bool a, .bool b => a == b
  | .arr a, .arr b => Json.beqList a b
  | .obj a, .obj b => Json.beqFields a b
  | _, _ => false

def Json.beqList : List Json → List Json → Bool
  | [], [] => true
  | x :: xs, y :: ys => Json.beq x y && Json.beqList xs ys
  | _, _ => false

def Json.beqFields : List (String × Json) → List (String × Json) → Bool
  | [], [] => true
  | (k, v) :: xs, (k2, v2) :: ys => k == k2 && Json.beq v v2 && Json.beqFields xs ys
  | _, _ => false

end

/-- Python truthiness of a parsed-JSON value (`if x:`). -/
def Json.truthy : Json → Bool
  | .null => false
  | .str s => !s.isEmpty
  | .num n => n != 0
  | .bool b => b
  | .arr xs => !xs.isEmpty
  | .obj fs => !fs.isEmpty

/-- Python `a or b` on parsed-JSON values: `a` when truthy, else `b`. -/
def Json.orElse (a b : Json) : Json :=
  if a.truthy then a else b

/-- Python `x.get(k)` on a parsed-JSON value: returns the field (with absent
fields reported as `None`) when `x` is a dict, and raises (`AttributeError`)
otherwise. -/
def Json.get? : Json → String → Except Unit Json
  | .obj fs, k =>
    .ok (match fs.find? (fun p => p.1 == k) with
         | some p => p.2
         | none => Json.null)
  | _, _ => .error ()

/-- Python `x.get(k, d)` with an explicit default. -/
def Json.getD? : Json → String → Json → Except Unit Json
  | .obj fs, k, d =>
    .ok (match fs.find? (fun p => p.1 == k) with
         | some p => p.2
         | none => d)
  | _, _, _ => .error ()

mutual

/-- Python `repr()` of a parsed-JSON value (used by `str()` on containers). -/
def Json.pyRepr : Json → String
  | .null => "None"
  | .str s => "\x27" ++ s ++ "\x27"
  | .num n => toString n
  | .bool b => if b then "True" else "False"
  | .arr xs => "[" ++ Json.pyReprList xs ++ "]"
  | .obj fs => "\x7b" ++ Json.pyReprFields fs ++ "\x7d"

def Json.pyReprList : List Json → String
  | [] => ""
  | [x] => Json.pyRepr x
  | x :: xs => Json.pyRepr x ++ ", " ++ Json.pyReprList xs

def Json.pyReprFields : List (String × Json) → String
  | [] => ""
  | [(k, v)] => "\x27" ++ k ++ "\x27: " ++ Json.pyRepr v
  | (k, v) :: fs => "\x27" ++ k ++ "\x27: " ++ Json.pyRepr v ++ ", " ++ Json.pyReprFields fs

end

/-- Python `str()` / f-string interpolation of a parsed-JSON value. -/
def Json.pyStr : Json → String
  | .str s => s
  | j => j.pyRepr

/-- Python iteration `for x in j`: lists yield elements, strings yield
one-character strings, dicts yield their keys; anything else raises
(`TypeError`). -/
def Json.pyIter : Json → Except Unit (List Json)
  | .arr xs => .ok xs
  | .str s => .ok (s.toList.map (fun c => Json.str c.toString))
  | .obj fs => .ok (fs.map (fun p => Json.str p.1))
  | _ => .error ()

/-- ASCII whitespace stripped by Python `str.strip()`. -/
def isPyWhitespace (c : Char) : Bool :=
  c = ' ' || c = '\t' || c = '\n' || c = '\r' || c = '\x0b' || c = '\x0c'

/-- Python `s.strip()` (over the ASCII whitespace set). -/
def strStrip (s : String) : String :=
  String.mk (((s.toList.dropWhile isPyWhitespace).reverse.dropWhile isPyWhitespace).reverse)

/-- Python `s.lower()` (ASCII case mapping). -/
def strLower (s : String) : String :=
  String.mk (s.toList.map Char.toLower)

/-- Python `s.startswith(p)`. -/
def strStartsWith (s p : String) : Bool :=
  p.toList.isPrefixOf s.toList

/-- Value of a list of ASCII digit characters. -/
def digitsToNat (l : List Char) : Option Nat :=
  if !l.isEmpty && l.all Char.isDigit then
    some (l.foldl (fun a c => a * 10 + (c.toNat - 48)) 0)
  else none

/-- Python `x.lower()`: defined on strings, raises otherwise. -/
def Json.pyLower : Json → Except Unit String
  | .str s => .ok (strLower s)
  | _ => .error ()

/-- Python `s.isdigit()` for the ASCII fragment used by this service. -/
def pyIsdigit (s : String) : Bool :=
  !s.isEmpty && s.toList.all Char.isDigit

/-- Python `int(s)` on a string: optional surrounding whitespace and an
optional sign followed by ASCII digits; `none` models `ValueError`. -/
def pyIntOfString (s : String) : Option Int :=
  let t := strStrip s
  if strStartsWith t "-" then (digitsToNat (t.toList.drop 1)).map (fun n => -(n : Int))
  else if strStartsWith t "+" then (digitsToNat (t.toList.drop 1)).map (fun n => (n : Int))
  else (digitsToNat t.toList).map (fun n => (n : Int))

/-- Python `int(x)` on a parsed-JSON value. -/
def Json.pyInt : Json → Except Unit Int
  | .num n => .ok n
  | .bool b => .ok (if b then 1 else 0)
  | .str s =>
    match pyIntOfString s with
    | some n => .ok n
    | none => .error ()
  | _ => .error ()

/-- Does `needle` occur as a contiguous run inside `hay`? -/
def listContainsRun (needle : List Char) : List Char → Bool
  | [] => needle.isEmpty
  | c :: rest => needle.isPrefixOf (c :: rest) || listContainsRun needle rest

/-- Substring containment check on strings. -/
def strContains (s pat : String) : Bool :=
  listContainsRun pat.toList s.toList

/-- `_parse_order_number` (main.py:101): strip whitespace, strip one leading
`#`, then `int(...)`; `None` on `ValueError`. -/
def parse_order_number (order_id : String) : Option Int :=
  let s := strStrip order_id
  let s := if strStartsWith s "#" then s.drop 1 else s
  pyIntOfString s

/-- `_format_items` (main.py:110): `", ".join(f"{qty} x {title}")` over the
insertion-ordered item dict. -/
def format_items (items : List (Json × Int)) : String :=
  String.intercalate ", " (items.map (fun p => toString p.2 ++ " x " ++ p.1.pyStr))

/-- `_context_not_found` (main.py:113): the fixed not-found template. -/
def context_not_found (order_id : String) : String :=
  "Order " ++ order_id ++ " not found with the provided details. Please double-check the order number or contact support for assistance."

/-- `_status_line_from_c7` (main.py:116): decision table over the lowercased
`fulfillmentStatus` / `shippingStatus` pair.  Raises (monadically) when a
status field holds a truthy non-string, exactly as `.lower()` would. -/
def status_line_from_c7 (order : Json) : Except Unit String := do
  let fsJ ← order.get? "fulfillmentStatus"
  let fs ← (fsJ.orElse (Json.str "")).pyLower
  let ssJ ← order.get? "shippingStatus"
  let ss ← (ssJ.orElse (Json.str "")).pyLower
  if fs = "not fulfilled" then
    return "Not shipped yet; typical dispatch within two business days."
  else if fs = "partially fulfilled" then
    return "Partially fulfilled; remaining items will ship soon."
  else if fs = "fulfilled" then
    if ss = "delivered" then
      return "Order was delivered."
    else if ss = "in transit" || ss = "pending" then
      return "Order is on its way; follow via the provided tracking link."
    else
      return "Order fulfilled."
  else if fs = "no fulfillment required" then
    return "No fulfillment required."
  else
    return "Order status available; see tracking for latest updates."

/-- One line of `_extract_items_from_c7`'s loop body (main.py:136): resolve
the title through the `productTitle` / `title` / `sku` / `"Item"` fallback
chain and the quantity through `int(line.get("quantity") or 1)`. -/
def line_entry (line : Json) : Except Unit (Json × Int) := do
  let t1 ← line.get? "productTitle"
  let title ←
    if t1.truthy then pure t1
    else do
      let t2 ← line.get? "title"
      if t2.truthy then pure t2
      else do
        let t3 ← line.get? "sku"
        pure (if t3.truthy then t3 else Json.str "Item")
  let q ← line.get? "quantity"
  let qty ← (q.orElse (Json.num 1)).pyInt
  return (title, qty)

/-- `out[title] = out.get(title, 0) + qty` on an insertion-ordered dict. -/
def addItem : List (Json × Int) → Json → Int → List (Json × Int)
  | [], t, q => [(t, q)]
  | (t2, q2) :: rest, t, q =>
    if Json.beq t2 t then (t2, q2 + q) :: rest
    else (t2, q2) :: addItem rest t q

/-- The accumulation loop of `_extract_items_from_c7` (main.py:135). -/
def extract_items_loop : List Json → List (Json × Int) → Except Unit (List (Json × Int))
  | [], out => .ok out
  | line :: rest, out => do
    let e ← line_entry line
    extract_items_loop rest (addItem out e.1 e.2)

/-- `_extract_items_from_c7` (main.py:133): sum quantities per title over
`order.get("items") or []`; default `{"Items": 1}` when the result is empty. -/
def extract_items_from_c7 (order : Json) : Except Unit (List (Json × Int)) := do
  let itemsJ ← order.get? "items"
  let items ← (itemsJ.orElse (Json.arr [])).pyIter
  let out ← extract_items_loop items []
  return (if out.isEmpty then [(Json.str "Items", 1)] else out)

/-- Loop body of `_extract_tracking_from_c7` (main.py:144): for each
fulfillment of type `shipped`, collect the truthy tracking numbers (as
strings) and remember the first truthy carrier. -/
def extract_tracking_loop : List Json → List String → Option String → Except Unit (List String × Option String)
  | [], nums, carrier => .ok (nums, carrier)
  | f :: rest, nums, carrier => do
    let ty ← f.get? "type"
    let tyl ← (ty.orElse (Json.str "")).pyLower
    if tyl = "shipped" then do
      let sh ← f.get? "shipped"
      let shipped := sh.orElse (Json.obj [])
      let tnsJ ← shipped.get? "trackingNumbers"
      let tns ← (tnsJ.orElse (Json.arr [])).pyIter
      let nums2 := nums ++ (tns.filter Json.truthy).map Json.pyStr
      let carrier2 ←
        if carrier = none ∨ carrier = some "" then do
          let c ← shipped.get? "carrier"
          pure (if c.truthy then some c.pyStr else none)
        else pure carrier
      extract_tracking_loop rest nums2 carrier2
    else
      extract_tracking_loop rest nums carrier

/-- `_extract_tracking_from_c7` (main.py:141). -/
def extract_tracking_from_c7 (order : Json) : Except Unit (List String × Option String) := do
  let fsJ ← order.get? "fulfillments"
  let fs ← (fsJ.orElse (Json.arr [])).pyIter
  extract_tracking_loop fs [] none

/-- Python `xs[0]` (main.py:250, `details[0]`): first element of a list,
first character of a string; raises on anything else (empty list included,
though the call site guards with truthiness). -/
def Json.pyIndex0 : Json → Except Unit Json
  | .arr (x :: _) => .ok x
  | .str s => if s.isEmpty then .error () else .ok (Json.str (s.take 1))
  | _ => .error ()

/-- main.py:249-250: `details = ws_payload.get("details") or
ws_payload.get("packages") or []` followed by
`pkg = details[0] if details else {}`. -/
def ws_pkg (p : Json) : Except Unit Json := do
  let d1 ← p.get? "details"
  let details ←
    if d1.truthy then pure d1
    else do
      let d2 ← p.get? "packages"
      pure (if d2.truthy then d2 else Json.arr [])
  if details.truthy then details.pyIndex0 else pure (Json.obj [])

/-- main.py:251-253: the `status` / `eta` / `url` field reads of
`_status_line_from_ws`, each with its fallback chain. -/
def ws_fields (pkg : Json) : Except Unit (Json × Json × Json) := do
  let s1 ← pkg.get? "statusDescription"
  let status ←
    if s1.truthy then pure s1
    else do
      let s2 ← pkg.get? "carrierStatus"
      pure (if s2.truthy then s2 else Json.str "in transit")
  let eta ← pkg.get? "estimatedDeliveryDate"
  let u1 ← pkg.get? "trackingUrl"
  let url ← if u1.truthy then pure u1 else pkg.get? "embeddedCarrierTrackingUrl"
  return (status, eta, url)

/-- main.py:254-256: `line = f"Order is on its way ({status})."` plus the
conditional `line += f" Estimated delivery {eta}."`. -/
def ws_line (status eta : Json) : String :=
  "Order is on its way (" ++ status.pyStr ++ ")." ++
    (if eta.truthy then " Estimated delivery " ++ eta.pyStr ++ "." else "")

/-- Body of the `try` block of `_status_line_from_ws` (main.py:248). -/
def status_line_from_ws_core (p : Json) : Except Unit (String × Json) := do
  let pkg ← ws_pkg p
  let f ← ws_fields pkg
  return (ws_line f.1 f.2.1, f.2.2)

/-- `_status_line_from_ws` (main.py:247): the `try` body with its blanket
`except` fallback sentence. -/
def status_line_from_ws (p : Json) : String × Json :=
  match status_line_from_ws_core p with
  | .ok r => r
  | .error _ => ("Order is on its way; follow via the provided tracking link.", Json.null)

/-- An HTTP response as delivered by the upstream: its status code and the
outcome `r.json()` would give on its body.  In the embedded client code the
fields are never consulted, because `text = await r.text()` (main.py:160 and
main.py:240) raises `TypeError` first — `httpx.Response.text` is a `str`
property, not a method — but the environment still records what the
upstream answered. -/
structure HttpResp where
  status_code : Nat
  body : Except Unit Json

/-- Environment of the C7 order system, one function per endpoint used.
A call's value is `.ok resp` when a response arrived and `.error ()` when
the request itself raised: a network/timeout exception from `client.get`,
or the missing-credentials `RuntimeError` from `_c7_headers`, both of which
occur before a response exists. -/
structure C7World where
  /-- `GET /orders?q={order_no}` (main.py:176). -/
  search : Int → Except Unit HttpResp
  /-- `GET /orders/{internal_id}` (main.py:197), keyed by the interpolated id. -/
  orderDetail : String → Except Unit HttpResp
  /-- `GET /customers/{cust_id}` (main.py:216), keyed by the interpolated id. -/
  customer : String → Except Unit HttpResp

/-- Environment of the WS tracking system.  `.error ()` models
`client.post` itself raising (network error / timeout). -/
structure WsWorld where
  /-- `POST /openapi/tracking/getdetails` (main.py:237), keyed by the
  tracking-number list sent in the JSON payload. -/
  getdetails : List String → Except Unit HttpResp

/-- `_fetch_c7_json` (main.py:155-163): issue the GET; if the request itself
raised, that exception propagates.  Otherwise a response `r` arrived and
line 160 executes `text = await r.text()`: under httpx `Response.text` is a
`str` property, so `r.text()` raises `TypeError: str object is not callable`
on every response.  The subsequent `r.raise_for_status()` and
`return r.json()` (main.py:162-163) are therefore unreachable, and the
function never returns a body. -/
def fetch_c7_json (call : Except Unit HttpResp) : Except Unit Json :=
  match call with
  | .error e => .error e
  | .ok _r => .error ()

/-- The two pieces of environment configuration consulted by the lookup
path: `WS_ENABLE` and `WS_API_KEY` (main.py:36-38). -/
structure Config where
  wsEnable : Bool
  wsApiKey : String

/-- The generator predicate of main.py:183, evaluated left to right with
Python semantics: `str(o.get("orderNumber")).isdigit() and
int(o["orderNumber"]) == order_no`; a raised exception propagates out of
`next(...)`. -/
def findOrderMatch : List Json → Int → Except Unit (Option Json)
  | [], _ => .ok none
  | o :: rest, order_no => do
    let v ← o.get? "orderNumber"
    if pyIsdigit v.pyStr then do
      let i ← v.pyInt
      if i = order_no then return (some o)
      else findOrderMatch rest order_no
    else
      findOrderMatch rest order_no

/-- `fetch_c7_order_by_number_and_email` (main.py:165).  Returns the
function's result (with `.error ()` for an exception escaping it, which the
caller `order_lookup` catches) together with the number of C7 HTTP requests
issued.  The `try`/`except` blocks around the search call, the detail call
and the customer call are modelled by discarding the call outcome into
`none` / returning `none` exactly as the source does. -/
def fetch_c7_order_by_number_and_email (w : C7World) (order_id email : String) :
    Except Unit (Option Json) × Nat :=
  match parse_order_number order_id with
  | none => (.ok none, 0)
  | some order_no =>
    -- `data = await _fetch_c7_json(client, "/orders", params={"q": str(order_no)})`
    -- wrapped in try/except: an exception leaves `data = None`.  Since
    -- `_fetch_c7_json` raises on every call (main.py:160), `data` is in
    -- fact always `None` and the branches below that need a search result
    -- are unreachable; they are translated regardless.
    let data : Option Json := match fetch_c7_json (w.search order_no) with
      | .ok j => some j
      | .error _ => none
    -- `orders = data.get("orders") if data else []`
    match (match data with
           | some d => if d.truthy then d.get? "orders" else .ok (Json.arr [])
           | none => .ok (Json.arr [])) with
    | .error e => (.error e, 1)
    | .ok orders =>
      match orders.pyIter with
      | .error e => (.error e, 1)
      | .ok elems =>
        match findOrderMatch elems order_no with
        | .error e => (.error e, 1)
        | .ok none => (.ok none, 1)
        | .ok (some m) =>
          match m.get? "id" with
          | .error e => (.error e, 1)
          | .ok internal_id =>
            match internal_id with
            | .null => (.ok none, 1)   -- `if internal_id is None`
            | _ =>
              -- detail fetch in try/except: exception leaves `full_order = None`.
              let full_order : Option Json := match fetch_c7_json (w.orderDetail internal_id.pyStr) with
                | .ok j => some j
                | .error _ => none
              -- `if not full_order: return None`
              match full_order with
              | none => (.ok none, 2)
              | some fo =>
                if !fo.truthy then (.ok none, 2)
                else
                  match fo.get? "customerId" with
                  | .error e => (.error e, 2)
                  | .ok cust_id =>
                    if !cust_id.truthy then (.ok none, 2)   -- `if not cust_id`
                    else
                      -- customer fetch in try/except: exception ⇒ `return None`.
                      match fetch_c7_json (w.customer cust_id.pyStr) with
                      | .error _ => (.ok none, 3)
                      | .ok customer =>
                        -- `emails = [e.get("email", "").lower() for e in (customer.get("emails") or [])]`
                        match (do
                          let emailsJ ← customer.get? "emails"
                          let emailsL ← (emailsJ.orElse (Json.arr [])).pyIter
                          emailsL.mapM (fun (e : Json) => do
                            let v ← Json.getD? e "email" (Json.str "")
                            Json.pyLower v)) with
                        | .error e => (.error e, 3)
                        | .ok emails =>
                          if emails.contains (strLower email) then (.ok (some fo), 3)
                          else (.ok none, 3)

/-- `fetch_ws_tracking` (main.py:232).  Second component counts WS HTTP
requests.  When the guard `WS_ENABLE and WS_API_KEY and tracking_numbers`
fails the client is a no-op returning `None`.  Otherwise the POST is
issued; if it raised, that exception propagates.  If a response `r`
arrived, main.py:240 executes `text = await r.text()`, which raises
`TypeError` on every response (`httpx.Response.text` is a `str` property),
BEFORE the `if r.status_code == 404` check at main.py:242,
`r.raise_for_status()` at main.py:244 and `return r.json()` at
main.py:245 — those three lines are unreachable, and once the guard passes
the client raises unconditionally. -/
def fetch_ws_tracking (cfg : Config) (w : WsWorld) (tracking_numbers : List String) :
    Except Unit (Option Json) × Nat :=
  if !(cfg.wsEnable && !cfg.wsApiKey.isEmpty && !tracking_numbers.isEmpty) then
    (.ok none, 0)
  else
    match w.getdetails tracking_numbers with
    | .error _ => (.error (), 1)
    | .ok _r => (.error (), 1)

/-- The validation applied by the default configured identifier pattern
`ORDER_ID_REGEX = ^\d{4,6}$` (main.py:20), via `ORDER_ID_PATTERN.match` on
the stripped identifier: four to six digits, nothing else. -/
def order_id_pattern_match (s : String) : Bool :=
  4 ≤ s.length && s.length ≤ 6 && s.toList.all Char.isDigit

/-- The two response shapes of `/order-lookup`: `found` is the
`JSONResponse(status_code=200, content=FoundResponse(...))` of main.py:320
and `notFound` the `JSONResponse(status_code=404, content=NotFoundResponse(...))`
of main.py:290/300.  The status code and the body shape are determined by
the constructor. -/
inductive Response where
  | found (context : String) (tracking_url : Option String)
  | notFound (context : String)
deriving DecidableEq

/-- Pydantic validation of `FoundResponse.tracking_url : Optional[str]`:
`None` and strings pass through; any other value raises a validation error
(which would surface as an unhandled exception). -/
def toOptStr : Json → Except Unit (Option String)
  | .null => .ok none
  | .str s => .ok (some s)
  | _ => .error ()

/-- The full environment of one request. -/
structure World where
  c7 : C7World
  ws : WsWorld

/-- The enrichment step of `order_lookup` (main.py:308-316): start from the
C7-derived status line and a `None` tracking url; when `WS_ENABLE` is set
and tracking numbers exist, call the WS client on the first three of them
inside `try`/`except`, and when the call returns a truthy payload replace
both via `_status_line_from_ws`.  Returns the chosen (status line, url)
pair and the number of WS HTTP requests issued. -/
def ws_step (cfg : Config) (wsw : WsWorld) (tracking_numbers : List String)
    (status_line0 : String) : (String × Json) × Nat :=
  if cfg.wsEnable && !tracking_numbers.isEmpty then
    match fetch_ws_tracking cfg wsw (tracking_numbers.take 3) with
    | (.error _, k) => ((status_line0, Json.null), k)
    | (.ok none, k) => ((status_line0, Json.null), k)
    | (.ok (some ws), k) =>
      (if ws.truthy then status_line_from_ws ws else (status_line0, Json.null), k)
  else ((status_line0, Json.null), 0)

/-- `order_lookup` (main.py:282), the endpoint body once the IP allowlist
and the `x-api-key` dependency have passed.  Result: the response produced
(`.error ()` standing for an unhandled exception, i.e. a generic 500),
paired with the total number of upstream HTTP requests issued. -/
def order_lookup (cfg : Config) (w : World) (order_id customer_email : String) :
    Except Unit Response × Nat :=
  if !order_id_pattern_match (strStrip order_id) then
    (.ok (.notFound (context_not_found order_id)), 0)
  else
    match fetch_c7_order_by_number_and_email w.c7 order_id customer_email with
    | (fres, n1) =>
      -- try/except around the fetch: an exception leaves `c7_order = None`.
      let c7_order : Option Json := match fres with
        | .ok r => r
        | .error _ => none
      match c7_order with
      | none => (.ok (.notFound (context_not_found order_id)), n1)
      | some o =>
        if !o.truthy then (.ok (.notFound (context_not_found order_id)), n1)
        else
          match extract_items_from_c7 o with
          | .error e => (.error e, n1)
          | .ok items =>
            match extract_tracking_from_c7 o with
            | .error e => (.error e, n1)
            | .ok (tracking_numbers, _carrier) =>
              match status_line_from_c7 o with
              | .error e => (.error e, n1)
              | .ok status_line0 =>
                match ws_step cfg w.ws tracking_numbers status_line0 with
                | ((status_line, best_tracking_url), n2) =>
                  match toOptStr best_tracking_url with
                  | .error e => (.error e, n1 + n2)
                  | .ok url =>
                    (.ok (.found ("Order " ++ order_id ++ " found. Items: " ++
                                  format_items items ++ ". " ++ status_line) url),
                     n1 + n2)

/-- A C7 search result listing order 40500. -/
def searchResult40500 : Json :=
  .obj [("orders", .arr [.obj [("orderNumber", .num 40500), ("id", .str "c7-internal-1")]])]

/-- The full C7 record of order 40500: fulfilled, delivered, two line items
(Wine A x2, Wine B x1), no fulfillments array. -/
def order40500 : Json :=
  .obj [("customerId", .str "cust-1"),
        ("fulfillmentStatus", .str "fulfilled"),
        ("shippingStatus", .str "delivered"),
        ("items", .arr [.obj [("productTitle", .str "Wine A"), ("quantity", .num 2)],
                        .obj [("productTitle", .str "Wine B"), ("quantity", .num 1)]])]

/-- The customer record owning order 40500. -/
def customerJane : Json :=
  .obj [("emails", .arr [.obj [("email", .str "Jane@Example.com")]])]

/-- A healthy C7 world: every endpoint answers 200, the search for 40500
returns `searchResult40500`, the detail fetch returns `order40500` and the
customer fetch returns `customerJane`; unknown queries answer 404. -/
def c7Happy : C7World where
  search := fun n =>
    if n = 40500 then .ok ⟨200, .ok searchResult40500⟩ else .ok ⟨404, .ok Json.null⟩
  orderDetail := fun s =>
    if s = "c7-internal-1" then .ok ⟨200, .ok order40500⟩ else .ok ⟨404, .ok Json.null⟩
  customer := fun s =>
    if s = "cust-1" then .ok ⟨200, .ok customerJane⟩ else .ok ⟨404, .ok Json.null⟩

/-- A C7 world in which every request raises before a response exists
(upstream unreachable). -/
def c7Down : C7World where
  search := fun _ => .error ()
  orderDetail := fun _ => .error ()
  customer := fun _ => .error ()

/-- A WS world whose every call raises (network failure). -/
def wsDown : WsWorld where
  getdetails := fun _ => .error ()

/-- A WS world answering 404 to every tracking query. -/
def ws404 : WsWorld where
  getdetails := fun _ => .ok ⟨404, .ok Json.null⟩

/-- A WS world answering 200 with an unparseable body. -/
def wsBadBody : WsWorld where
  getdetails := fun _ => .ok ⟨200, .error ()⟩

/-- A WS world answering 200 with the truthy parseable payload
`{"details": []}`. -/
def wsEmptyDetails : WsWorld where
  getdetails := fun _ => .ok ⟨200, .ok (Json.obj [("details", Json.arr [])])⟩

/-- Enrichment disabled. -/
def cfgNoWs : Config := ⟨false, ""⟩

/-- Enrichment enabled with a credential. -/
def cfgWs : Config := ⟨true, "ws-key"⟩

/-- Whether the request raised or a response arrived, `_fetch_c7_json`
raises: in the latter case via `text = await r.text()` at main.py:160. -/
lemma fetch_c7_json_always_error (call : Except Unit HttpResp) :
    fetch_c7_json call = .error () := by
  cases call with
  | error e => cases e; rfl
  | ok r => rfl

/-- `fetch_c7_order_by_number_and_email` can never yield an order: the
search's `try`/`except` always leaves `data = None` because
`_fetch_c7_json` raises on every call (main.py:160), so `orders = []`, no
match exists, and the function returns `None`. -/
lemma fetch_c7_never_returns_order (w : C7World) (oid email : String) :
    (fetch_c7_order_by_number_and_email w oid email).1 = .ok none := by
  unfold fetch_c7_order_by_number_and_email
  cases hp : parse_order_number oid
  · rfl
  · simp [fetch_c7_json_always_error, Json.pyIter, findOrderMatch]

/-- Consequently `order_lookup` answers the fixed 404 template on every
request: the pattern check either fails outright, or the resolution step
comes back empty and the `if not c7_order` branch (main.py:298-300) fires. -/
lemma order_lookup_always_notFound (cfg : Config) (w : World) (oid email : String) :
    ∃ n, order_lookup cfg w oid email = (.ok (.notFound (context_not_found oid)), n) := by
  unfold order_lookup
  split
  · exact ⟨0, rfl⟩
  · rcases hf : fetch_c7_order_by_number_and_email w.c7 oid email with ⟨res, k⟩
    have h1 := fetch_c7_never_returns_order w.c7 oid email
    rw [hf] at h1
    simp at h1
    subst h1
    exact ⟨k, rfl⟩

lemma order_lookup_notFound_context (cfg : Config) (w : World) (oid email ctx : String)
    (n : Nat) (h : order_lookup cfg w oid email = (.ok (.notFound ctx), n)) :
    ctx = context_not_found oid := by
  unfold order_lookup at h
  repeat' (first | (split at h) | simp_all)

lemma exceptBind_ok {α β : Type} (a : α) (f : α → Except Unit β) :
    (Except.ok a >>= f) = f a := rfl

lemma exceptBind_error {α β : Type} (e : Unit) (f : α → Except Unit β) :
    ((Except.error e : Except Unit α) >>= f) = .error e := rfl

lemma exceptPure {α : Type} (a : α) : (pure a : Except Unit α) = .ok a := rfl

lemma extract_items_nonempty (o : Json) (items : List (Json × Int))
    (h : extract_items_from_c7 o = .ok items) : items ≠ [] := by
  unfold extract_items_from_c7 at h
  cases hg : Json.get? o "items" with
  | error e => rw [hg] at h; simp [exceptBind_error] at h
  | ok j =>
    rw [hg] at h
    simp only [exceptBind_ok] at h
    cases hi : (j.orElse (Json.arr [])).pyIter with
    | error e => rw [hi] at h; simp [exceptBind_error] at h
    | ok lines =>
      rw [hi] at h
      simp only [exceptBind_ok] at h
      cases hl : extract_items_loop lines [] with
      | error e => rw [hl] at h; simp [exceptBind_error] at h
      | ok out =>
        rw [hl] at h
        simp only [exceptBind_ok, exceptPure, Except.ok.injEq] at h
        cases hout : out.isEmpty with
        | true => simp [hout] at h; simp [← h]
        | false =>
          simp [hout] at h
          subst h
          simp_all [List.isEmpty_iff]

lemma extract_items_default (o j : Json) (hg : Json.get? o "items" = .ok j)
    (hj : j.truthy = false) :
    extract_items_from_c7 o = .ok [(Json.str "Items", 1)] := by
  unfold extract_items_from_c7
  rw [hg]
  simp only [exceptBind_ok]
  have horj : j.orElse (Json.arr []) = Json.arr [] := by
    unfold Json.orElse; simp [hj]
  rw [horj]
  rfl

lemma order_lookup_found_inv (cfg : Config) (w : World) (oid email ctx : String)
    (url : Option String) (n : Nat)
    (h : order_lookup cfg w oid email = (.ok (.found ctx url), n)) :
    ∃ o items sl, extract_items_from_c7 o = .ok items ∧
      ctx = "Order " ++ oid ++ " found. Items: " ++ format_items items ++ ". " ++ sl := by
  unfold order_lookup at h
  repeat' (first | (split at h) | simp_all)
  rename_i htru hitems htrack hstat hurl2
  exact ⟨_, _, hitems, _, h.1.1.symm⟩

mutual

lemma Json.beq_iff : (a b : Json) → (Json.beq a b = true ↔ a = b)
  | .null, b => by cases b <;> simp [Json.beq]
  | .str s, b => by cases b <;> simp [Json.beq]
  | .num n, b => by cases b <;> simp [Json.beq]
  | .bool x, b => by cases b <;> simp [Json.beq]
  | .arr xs, b => by
      cases b <;> simp [Json.beq]
      exact Json.beqList_iff xs _
  | .obj fs, b => by
      cases b <;> simp [Json.beq]
      exact Json.beqFields_iff fs _

lemma Json.beqList_iff : (a b : List Json) → (Json.beqList a b = true ↔ a = b)
  | [], [] => by simp [Json.beqList]
  | [], _ :: _ => by simp [Json.beqList]
  | _ :: _, [] => by simp [Json.beqList]
  | x :: xs, y :: ys => by
      simp [Json.beqList, Json.beq_iff x y, Json.beqList_iff xs ys]

lemma Json.beqFields_iff : (a b : List (String × Json)) → (Json.beqFields a b = true ↔ a = b)
  | [], [] => by simp [Json.beqFields]
  | [], _ :: _ => by simp [Json.beqFields]
  | _ :: _, [] => by simp [Json.beqFields]
  | (k, v) :: xs, (k2, v2) :: ys => by
      simp [Json.beqFields, Json.beq_iff v v2, Json.beqFields_iff xs ys, Prod.ext_iff]

end

lemma isPrefixOf_append_self (p y : List Char) : p.isPrefixOf (p ++ y) = true := by
  induction p with
  | nil => cases y <;> rfl
  | cons c p ih => simp [List.isPrefixOf, ih]

lemma listContainsRun_middle (x p y : List Char) :
    listContainsRun p (x ++ (p ++ y)) = true := by
  induction x with
  | nil =>
    cases p with
    | nil =>
      cases y with
      | nil => rfl
      | cons c ys => simp [listContainsRun, List.isPrefixOf]
    | cons c ps =>
      have h := isPrefixOf_append_self (c :: ps) y
      simp only [List.nil_append, List.cons_append] at *
      simp [listContainsRun, h]
  | cons c xs ih => simp [listContainsRun, ih]

lemma strContains_middle (a b p : String) :
    strContains (a ++ (p ++ b)) p = true := by
  unfold strContains
  have h : (a ++ (p ++ b)).toList = a.toList ++ (p.toList ++ b.toList) := by
    simp [String.toList, String.data_append]
  rw [h]
  exact listContainsRun_middle _ _ _

/-- The quantity stored for title `t` in an insertion-ordered item dict
(`0` when absent). -/
def itemQty (t : Json) (items : List (Json × Int)) : Int :=
  match items.find? (fun p => Json.beq p.1 t) with
  | some p => p.2
  | none => 0

/-- Total quantity carried by the parsed line entries whose title is `t`. -/
def linesQty (t : Json) (entries : List (Json × Int)) : Int :=
  ((entries.filter (fun e => Json.beq e.1 t)).map Prod.snd).sum

/-- Parsing every line of an items list through `line_entry`, in order. -/
def parse_entries : List Json → Except Unit (List (Json × Int))
  | [] => .ok []
  | l :: rest => do
    let e ← line_entry l
    let es ← parse_entries rest
    return (e :: es)

lemma itemQty_addItem (acc : List (Json × Int)) (u : Json) (q : Int) (t : Json) :
    itemQty t (addItem acc u q) =
      itemQty t acc + (if Json.beq u t = true then q else 0) := by
  induction acc with
  | nil =>
    by_cases h : Json.beq u t = true <;>
      simp [addItem, itemQty, List.find?, h]
  | cons p rest ih =>
    obtain ⟨t2, q2⟩ := p
    by_cases h2 : Json.beq t2 u = true
    · have ht2u : t2 = u := (Json.beq_iff t2 u).mp h2
      subst ht2u
      by_cases ht : Json.beq t2 t = true
      · simp [addItem, itemQty, List.find?, h2, ht]
      · simp [addItem, itemQty, List.find?, h2, ht]
    · have hne : t2 ≠ u := fun hc => h2 ((Json.beq_iff t2 u).mpr hc)
      by_cases ht : Json.beq t2 t = true
      · have ht2t : t2 = t := (Json.beq_iff t2 t).mp ht
        have hut : ¬(Json.beq u t = true) := fun hc => by
          have : u = t := (Json.beq_iff u t).mp hc
          exact hne (ht2t.trans this.symm)
        simp [addItem, itemQty, List.find?, h2, ht, hut]
      · simp only [addItem, if_neg h2]
        simp only [itemQty, List.find?, ht] at ih ⊢
        simp [ht, ih]

lemma itemQty_fold (entries : List (Json × Int)) (acc : List (Json × Int)) (t : Json) :
    itemQty t (entries.foldl (fun a e => addItem a e.1 e.2) acc) =
      itemQty t acc + linesQty t entries := by
  induction entries generalizing acc with
  | nil => simp [linesQty]
  | cons e rest ih =>
    simp only [List.foldl_cons]
    rw [ih, itemQty_addItem]
    unfold linesQty
    by_cases h : Json.beq e.1 t = true <;> simp [h, List.filter_cons] <;> ring

lemma extract_items_loop_eq (lines : List Json) (acc : List (Json × Int)) :
    extract_items_loop lines acc =
      (parse_entries lines).map
        (fun entries => entries.foldl (fun a e => addItem a e.1 e.2) acc) := by
  induction lines generalizing acc with
  | nil => rfl
  | cons l rest ih =>
    unfold extract_items_loop parse_entries
    cases hl : line_entry l with
    | error e => simp [hl, exceptBind_error, Except.map]
    | ok e =>
      simp only [hl, exceptBind_ok]
      rw [ih]
      cases hp : parse_entries rest <;>
        simp [Except.map, exceptBind_ok, exceptBind_error, exceptPure, hp]

lemma addItem_keys_subset (acc : List (Json × Int)) (t : Json) (q : Int) (x : Json)
    (hx : x ∈ (addItem acc t q).map Prod.fst) : x ∈ acc.map Prod.fst ∨ x = t := by
  induction acc with
  | nil =>
    simp [addItem] at hx
    right; exact hx
  | cons p rest ih =>
    obtain ⟨t2, q2⟩ := p
    by_cases h : Json.beq t2 t = true
    · simp [addItem, h] at hx
      left; simpa using hx
    · simp only [addItem, if_neg h, List.map_cons, List.mem_cons] at hx
      rcases hx with hx | hx
      · left; simp [hx]
      · rcases ih hx with h1 | h1
        · left; simp [h1]
        · right; exact h1

lemma addItem_keys_nodup (acc : List (Json × Int)) (t : Json) (q : Int)
    (h : (acc.map Prod.fst).Nodup) : ((addItem acc t q).map Prod.fst).Nodup := by
  induction acc with
  | nil => simp [addItem]
  | cons p rest ih =>
    obtain ⟨t2, q2⟩ := p
    simp only [List.map_cons, List.nodup_cons] at h
    by_cases hb : Json.beq t2 t = true
    · simp only [addItem, if_pos hb, List.map_cons, List.nodup_cons]
      exact ⟨h.1, h.2⟩
    · simp only [addItem, if_neg hb, List.map_cons, List.nodup_cons]
      refine ⟨fun hc => ?_, ih h.2⟩
      rcases addItem_keys_subset rest t q t2 hc with h1 | h1
      · exact h.1 h1
      · exact hb ((Json.beq_iff t2 t).mpr h1)

lemma fold_keys_nodup (entries : List (Json × Int)) (acc : List (Json × Int))
    (h : (acc.map Prod.fst).Nodup) :
    ((entries.foldl (fun a e => addItem a e.1 e.2) acc).map Prod.fst).Nodup := by
  induction entries generalizing acc with
  | nil => exact h
  | cons e rest ih => exact ih _ (addItem_keys_nodup _ _ _ h)

lemma extract_items_keys_nodup (o : Json) (items : List (Json × Int))
    (h : extract_items_from_c7 o = .ok items) : (items.map Prod.fst).Nodup := by
  unfold extract_items_from_c7 at h
  cases hg : Json.get? o "items" with
  | error e => rw [hg] at h; simp [exceptBind_error] at h
  | ok j =>
    rw [hg] at h
    simp only [exceptBind_ok] at h
    cases hi : (j.orElse (Json.arr [])).pyIter with
    | error e => rw [hi] at h; simp [exceptBind_error] at h
    | ok lines =>
      rw [hi] at h
      simp only [exceptBind_ok] at h
      rw [extract_items_loop_eq] at h
      cases hp : parse_entries lines with
      | error e => rw [hp] at h; simp [Except.map, exceptBind_error] at h
      | ok entries =>
        rw [hp] at h
        simp only [Except.map, exceptBind_ok, exceptPure, Except.ok.injEq] at h
        split at h
        · rw [← h]; simp
        · rw [← h]
          exact fold_keys_nodup entries [] (by simp)

lemma pyLower_orElse_empty (s : String) :
    ((Json.str s).orElse (Json.str "")).pyLower = .ok (strLower s) := by
  unfold Json.orElse Json.truthy
  by_cases h : s.isEmpty = true
  · have hs : s = "" := (String.isEmpty_iff s).mp h
    simp [h, Json.pyLower, hs]
  · simp [h, Json.pyLower]

lemma on_its_way_split (x y : String) :
    "Order is on its way (" ++ x ++ ")." ++ y =
      "Order is on its way" ++ (" (" ++ x ++ (")." ++ y)) := by
  have h1 : ("Order is on its way (" : String) = "Order is on its way" ++ " (" := rfl
  rw [h1]
  simp only [String.append_assoc]

lemma ws_core_shape (p : Json) (r : String × Json)
    (h : status_line_from_ws_core p = .ok r) :
    ∃ t, r.1 = "Order is on its way" ++ t := by
  unfold status_line_from_ws_core at h
  cases hp : ws_pkg p with
  | error e => rw [hp] at h; simp [exceptBind_error] at h
  | ok pkg =>
    rw [hp] at h
    simp only [exceptBind_ok] at h
    cases hf : ws_fields pkg with
    | error e => rw [hf] at h; simp [exceptBind_error] at h
    | ok f =>
      rw [hf] at h
      simp only [exceptBind_ok, exceptPure, Except.ok.injEq] at h
      refine ⟨" (" ++ f.1.pyStr ++ (")." ++
        (if f.2.1.truthy = true then " Estimated delivery " ++ f.2.1.pyStr ++ "." else "")), ?_⟩
      rw [← h]
      unfold ws_line
      exact on_its_way_split _ _

/-- The tracking payloads used to exhibit the absence of a code-to-sentence
table in `_status_line_from_ws`. -/
def wsPayloadDelivered : Json :=
  .obj [("details", .arr [.obj [("statusDescription", .str "Delivered")]])]

def wsPayloadCanceled : Json :=
  .obj [("details", .arr [.obj [("statusDescription", .str "Canceled")]])]

/-- C1: for every authenticated request, whenever `/order-lookup` answers
with the 404 shape — whether the identifier was invalid, no order matched,
an upstream order-system call failed, or the supplied email (compared
case-insensitively) was not among the matched customer's emails — the body
is the single fixed not-found message built from the caller's identifier.
Since the `Response.notFound` constructor fixes the status code (404) and
the body shape (`{"context": ...}`), all failure causes produce identical
responses and a caller cannot distinguish them. -/
theorem lookup_404_responses_indistinguishable (cfg : Config) (w : World)
    (order_id customer_email ctx : String) (n : Nat)
    (h : order_lookup cfg w order_id customer_email = (.ok (.notFound ctx), n)) :
    ctx = context_not_found order_id :=
  order_lookup_notFound_context cfg w order_id customer_email ctx n h

theorem lookup_404_responses_indistinguishable_witness :
    "Order 40500 not found with the provided details. Please double-check the order number or contact support for assistance." =
      context_not_found "40500" :=
  lookup_404_responses_indistinguishable cfgNoWs ⟨c7Happy, wsDown⟩ "40500"
    "mallory@example.com"
    "Order 40500 not found with the provided details. Please double-check the order number or contact support for assistance."
    1 (by rfl)

/-- C2: when the whitespace-stripped identifier fails the configured
pattern (default `^\d{4,6}$`), the endpoint answers 404 with the fixed
not-found template and issues zero upstream HTTP requests. -/
theorem invalid_identifier_404_zero_upstream_calls (cfg : Config) (w : World)
    (order_id customer_email : String)
    (h : order_id_pattern_match (strStrip order_id) = false) :
    order_lookup cfg w order_id customer_email =
      (.ok (.notFound (context_not_found order_id)), 0) := by
  unfold order_lookup
  simp [h]

theorem invalid_identifier_404_zero_upstream_calls_witness :
    order_id_pattern_match (strStrip "abc") = false ∧
    order_lookup cfgNoWs ⟨c7Happy, wsDown⟩ "abc" "jane@example.com" =
      (.ok (.notFound (context_not_found "abc")), 0) :=
  ⟨by rfl, invalid_identifier_404_zero_upstream_calls cfgNoWs ⟨c7Happy, wsDown⟩
    "abc" "jane@example.com" (by rfl)⟩

/-- C3: the claimed 200 response is unreachable.  Evaluating the endpoint
on a world where the order system is healthy — the search answers 200 with
a result set matching order 40500, the detail fetch answers 200 with the
fulfilled/delivered order holding Wine A x2 and Wine B x1, and the customer
fetch answers 200 with Jane's record — the lookup still answers the fixed
404 not-found response after the single search attempt, because
`text = await r.text()` at main.py:160 raises `TypeError` on every httpx
response (`Response.text` is a `str` property), so the search never yields
data and no order can resolve.  The specification's example outcome cannot
be produced by this code. -/
theorem healthy_upstream_still_404 :
    order_lookup cfgNoWs ⟨c7Happy, wsDown⟩ "40500" "jane@example.com" =
      (.ok (.notFound (context_not_found "40500")), 1) := by
  rfl

/-- The decision table stated by the specification for the commerce
system's fulfillment/shipping status pair, written from the spec's words
(case-insensitive comparisons, first match wins), with the concrete message
texts of the implementation. -/
def spec_c7_decision_table (fs ss : String) : String :=
  if strLower fs = "not fulfilled" then
    "Not shipped yet; typical dispatch within two business days."
  else if strLower fs = "partially fulfilled" then
    "Partially fulfilled; remaining items will ship soon."
  else if strLower fs = "fulfilled" then
    if strLower ss = "delivered" then "Order was delivered."
    else if strLower ss = "in transit" || strLower ss = "pending" then
      "Order is on its way; follow via the provided tracking link."
    else "Order fulfilled."
  else if strLower fs = "no fulfillment required" then
    "No fulfillment required."
  else "Order status available; see tracking for latest updates."

/-- C4: on every order record carrying string `fulfillmentStatus` and
`shippingStatus` fields, `_status_line_from_c7` implements exactly the
fixed case-insensitive decision table stated by the specification. -/
theorem c7_status_mapper_implements_spec_table (order : Json) (fs ss : String)
    (h1 : Json.get? order "fulfillmentStatus" = .ok (.str fs))
    (h2 : Json.get? order "shippingStatus" = .ok (.str ss)) :
    status_line_from_c7 order = .ok (spec_c7_decision_table fs ss) := by
  unfold status_line_from_c7 spec_c7_decision_table
  rw [h1]
  simp only [exceptBind_ok]
  rw [pyLower_orElse_empty]
  simp only [exceptBind_ok]
  rw [h2]
  simp only [exceptBind_ok]
  rw [pyLower_orElse_empty]
  simp only [exceptBind_ok]
  split_ifs <;> rfl

theorem c7_status_mapper_implements_spec_table_witness :
    status_line_from_c7 order40500 = .ok (spec_c7_decision_table "fulfilled" "delivered") :=
  c7_status_mapper_implements_spec_table order40500 "fulfilled" "delivered" (by rfl) (by rfl)

/-- C5 counterexample: `_status_line_from_ws` has no code-to-sentence
table.  A payload whose status code is `Delivered` — which the claimed
table maps to a dedicated delivered sentence — produces the generic
template "Order is on its way (Delivered)." with the raw code interpolated,
and a `Canceled` payload likewise produces "Order is on its way
(Canceled).": a canceled or delivered shipment is reported as being on its
way, so no table covering received/on-hold/processing/canceled/…/delivered
exists in the code. -/
theorem ws_mapper_lacks_code_table_counterexample :
    status_line_from_ws wsPayloadDelivered = ("Order is on its way (Delivered).", Json.null) ∧
    status_line_from_ws wsPayloadCanceled = ("Order is on its way (Canceled).", Json.null) :=
  ⟨rfl, rfl⟩

/-- C5 amended: for every tracking-system payload, the mapper reads the
first element of the `details` (or `packages`) list, takes
`statusDescription` then `carrierStatus` in priority order (falling back to
the literal text "in transit"), and interpolates that text verbatim into
the single sentence template "Order is on its way ({status})." (optionally
followed by an estimated-delivery clause); on any malformed payload it
falls back to the generic on-its-way sentence.  In particular every
possible output begins with "Order is on its way" — there is no
code-to-sentence table. -/
theorem ws_mapper_always_on_its_way (p : Json) :
    ∃ t, (status_line_from_ws p).1 = "Order is on its way" ++ t := by
  unfold status_line_from_ws
  cases h : status_line_from_ws_core p with
  | ok r => exact ws_core_shape p r h
  | error e => exact ⟨"; follow via the provided tracking link.", rfl⟩

/-- C6: the claimed handling is not what the code does.  A 404 from the
tracking upstream is NOT treated as "no data": `text = await r.text()` at
main.py:240 raises `TypeError` before the `status_code == 404` check at
main.py:242, so the concrete 404 exchange below ends in the raised
exception (first conjunct).  And the "resolved order still produces a 200
using the commerce status line" situation can never arise: every request —
tracking failure or not — receives the fixed 404 not-found response,
because the order client itself raises on every call (main.py:160) and no
order ever resolves (second conjunct). -/
theorem ws_404_not_treated_as_no_data :
    fetch_ws_tracking cfgWs ws404 ["TN1"] = (.error (), 1)
    ∧ ∀ (cfg : Config) (w : World) (oid email : String),
        ∃ n, order_lookup cfg w oid email =
          (.ok (.notFound (context_not_found oid)), n) :=
  ⟨rfl, fun cfg w oid email => order_lookup_always_notFound cfg w oid email⟩

/-- C7: the tracking client raises no matter what the response body holds.
On a success-status response whose body is unparseable it raises — but not
via `r.json()`: the raise is the `TypeError` from `text = await r.text()`
at main.py:240 (`httpx.Response.text` is a `str` property), which fires
before `r.raise_for_status()` and `return r.json()` are ever reached.  The
same raise occurs on a success-status response whose body parses fine, so
no fallback status object is ever substituted and the claimed tolerance
does not exist in the code. -/
theorem ws_client_raises_regardless_of_body :
    fetch_ws_tracking cfgWs wsBadBody ["TN1"] = (.error (), 1)
    ∧ fetch_ws_tracking cfgWs wsEmptyDetails ["TN1"] = (.error (), 1) :=
  ⟨rfl, rfl⟩

/-- C8 counterexample: the not-found template is the fixed string below; it
contains the caller's identifier and a generic invitation to "contact
support for assistance", but no configured support-contact value — the
source defines no support-contact configuration at all, and in particular
no address-like contact (no "@") appears in the message. -/
theorem not_found_template_lacks_configured_contact :
    context_not_found "40500" =
      "Order 40500 not found with the provided details. Please double-check the order number or contact support for assistance." ∧
    strContains (context_not_found "40500") "@" = false :=
  ⟨rfl, rfl⟩

/-- C8 amended: every not-found response of the endpoint carries exactly
the fixed template "Order {order_id} not found with the provided details.
Please double-check the order number or contact support for assistance.",
which embeds the original un-normalized identifier exactly as given by the
caller, contains a generic suggestion to contact support (no configured
support-contact value exists in this code), and contains no upstream
detail. -/
theorem not_found_template_content (cfg : Config) (w : World)
    (order_id customer_email ctx : String) (n : Nat)
    (h : order_lookup cfg w order_id customer_email = (.ok (.notFound ctx), n)) :
    ctx = "Order " ++ order_id ++ " not found with the provided details. Please double-check the order number or contact support for assistance." := by
  have hc := order_lookup_notFound_context cfg w order_id customer_email ctx n h
  rw [hc]
  rfl

theorem not_found_template_content_witness :
    context_not_found "99999" =
      "Order " ++ "99999" ++ " not found with the provided details. Please double-check the order number or contact support for assistance." :=
  not_found_template_content cfgNoWs ⟨c7Down, wsDown⟩ "99999" "jane@example.com"
    (context_not_found "99999") 1 (by rfl)

/-- C9: item extraction always yields a non-empty summary.  (1) Every
successful extraction is non-empty and holds one entry per title.
(2) When the order's `items` field is missing, null or empty (falsy), the
summary defaults to the single placeholder entry mapping "Items" to 1.
(3) Lines sharing the same title have their quantities summed: for every
parsed entry list, the quantity recorded for a title equals the total
quantity of the lines carrying that title.  (4) Consequently every found
response's context contains an item clause introduced by " found. Items: ". -/
theorem items_summary_properties :
    (∀ (o : Json) (items : List (Json × Int)),
        extract_items_from_c7 o = .ok items →
        items ≠ [] ∧ (items.map Prod.fst).Nodup)
  ∧ (∀ (o j : Json), Json.get? o "items" = .ok j → j.truthy = false →
        extract_items_from_c7 o = .ok [(Json.str "Items", 1)])
  ∧ (∀ (lines : List Json) (entries : List (Json × Int)) (t : Json),
        parse_entries lines = .ok entries →
        extract_items_loop lines [] =
          .ok (entries.foldl (fun a e => addItem a e.1 e.2) []) ∧
        itemQty t (entries.foldl (fun a e => addItem a e.1 e.2) []) =
          linesQty t entries)
  ∧ (∀ (cfg : Config) (w : World) (oid email ctx : String)
        (url : Option String) (n : Nat),
        order_lookup cfg w oid email = (.ok (.found ctx url), n) →
        strContains ctx " found. Items: " = true) := by
  refine ⟨?_, ?_, ?_, ?_⟩
  · intro o items h
    exact ⟨extract_items_nonempty o items h, extract_items_keys_nodup o items h⟩
  · intro o j hg hj
    exact extract_items_default o j hg hj
  · intro lines entries t hp
    constructor
    · rw [extract_items_loop_eq, hp]
      rfl
    · rw [itemQty_fold]
      simp [itemQty]
  · intro cfg w oid email ctx url n h
    obtain ⟨o, items, sl, hitems, hctx⟩ := order_lookup_found_inv cfg w oid email ctx url n h
    rw [hctx]
    rw [show "Order " ++ oid ++ " found. Items: " ++ format_items items ++ ". " ++ sl =
          ("Order " ++ oid) ++ (" found. Items: " ++ (format_items items ++ (". " ++ sl))) by
        simp [String.append_assoc]]
    exact strContains_middle ("Order " ++ oid) (format_items items ++ (". " ++ sl))
      " found. Items: "

theorem items_summary_properties_witness :
    extract_items_from_c7 (Json.obj [("items", Json.null)]) = .ok [(Json.str "Items", 1)] :=
  items_summary_properties.2.1 (Json.obj [("items", Json.null)]) Json.null (by rfl) (by rfl)

/-- C10: the antecedent of the claimed replacement can never hold.  The
tracking client never returns a payload at all: for every configuration,
tracking world and number list, its result is either the guard no-op
(`None`) or a raised exception — `text = await r.text()` at main.py:240
raises `TypeError` on every response — so the replacement branch at
main.py:313-314 is unreachable (and no order ever resolves to reach the
enrichment step in the first place).  The second conjunct records what the
replacement would produce if it were reachable: the pure mapper sends the
truthy payload `{"details": []}` to "Order is on its way (in transit)."
regardless of the commerce-system statuses. -/
theorem ws_client_never_returns_payload :
    (∀ (cfg : Config) (wsw : WsWorld) (nums : List String),
        (fetch_ws_tracking cfg wsw nums).1 = .ok none ∨
        (fetch_ws_tracking cfg wsw nums).1 = .error ())
    ∧ status_line_from_ws (Json.obj [("details", Json.arr [])]) =
        ("Order is on its way (in transit).", Json.null) := by
  constructor
  · intro cfg wsw nums
    unfold fetch_ws_tracking
    split
    · exact Or.inl rfl
    · cases h : wsw.getdetails nums
      · exact Or.inr rfl
      · exact Or.inr rfl
  · rfl
